import Mathlib

/-
  Shallow embedding of the flight-schedule timeline layout engine (app.py).

  Time instants are modelled as minutes since the Unix epoch (Int); durations
  handed to the label logic are seconds, modelled as exact rationals (the
  Python code computes with float64; we model these arithmetic expressions
  with exact rational arithmetic).
-/

namespace FlightProg

/-- The fixed aircraft ordering of generate_plot (app.py line 33). -/
def order : List String :=
  ["N330QT", "N331QT", "N332QT", "N334QT", "N335QT", "N336QT", "N337QT"]

/-- One parsed flight row after date parsing and fillna (columns of app.py). -/
structure FlightRecord where
  tail : String
  flightNumber : String
  trip : String
  notas : String
  tripadi : String
  origin : String
  dest : String
  departure : Int
  arrival : Int
deriving DecidableEq, Repr

/-! ## IntervalClipper: app.py lines 41-47 of generate_plot.

    start = vuelo.fecha_salida; duration = fecha_llegada - fecha_salida;
    if start < start_time: duration -= (start_time - start); start = start_time
    if start + duration > end_time: duration = end_time - start -/

/-- Clip a bar to the page window; returns (displayed start, displayed duration). -/
def clip (dep arr ws we : Int) : Int × Int :=
  let start := dep
  let duration := arr - dep
  let p := if start < ws then (ws, duration - (ws - start)) else (start, duration)
  let duration2 := if p.1 + p.2 > we then we - p.1 else p.2
  (p.1, duration2)

theorem clip_fst (dep arr ws we : Int) : (clip dep arr ws we).1 = max dep ws := by
  unfold clip
  dsimp only
  split <;> simp <;> omega

theorem clip_snd (dep arr ws we : Int) :
    (clip dep arr ws we).2 = min arr we - max dep ws := by
  unfold clip
  dsimp only
  split <;> rename_i h <;> dsimp only <;> split <;> rename_i h2 <;> omega

/-! ## LabelFitter: text_fits and draw_text (app.py lines 20-30). -/

/-- Hours represented by a duration given in seconds
    (duration.total_seconds() / 3600). -/
def durationHours (sec : ℚ) : ℚ := sec / 3600

/-- text_fits (app.py lines 20-22):
    text_length_approx = len(text) * 0.02;
    return duration.total_seconds() / 3600 >= text_length_approx -/
def text_fits (text : String) (durationSec : ℚ) : Bool :=
  let text_length_approx : ℚ := (text.length : ℚ) * (2 / 100)
  decide (durationSec / 3600 ≥ text_length_approx)

/-- Python int(): truncation toward zero. -/
def pyInt (q : ℚ) : Int := if 0 ≤ q then ⌊q⌋ else ⌈q⌉

/-- Python text[:k] (slice from the left; a negative k counts from the end,
    clamped at zero). -/
def pySliceTo (s : String) (k : Int) : String :=
  if 0 ≤ k then s.take k.toNat else s.take ((s.length : Int) + k).toNat

/-- The text drawn by draw_text (app.py lines 24-30):
    max_width = duration.total_seconds() / 3600 * 0.8;
    fits: the text itself; otherwise text[:int(max_width * 50)] + three dots. -/
def draw_text_rendered (text : String) (durationSec : ℚ) : String :=
  let max_width := durationSec / 3600 * (8 / 10)
  if text_fits text durationSec then text
  else pySliceTo text (pyInt (max_width * 50)) ++ "..."

/-- Computation bridge: on an integer number of seconds the fit test is the
    integer comparison 72 * len ≤ sec. -/
theorem text_fits_int (text : String) (n : ℤ) :
    text_fits text (n : ℚ) = decide ((72 : ℤ) * text.length ≤ n) := by
  have h : ((text.length : ℚ) * (2 / 100) ≤ (n : ℚ) / 3600) ↔
      ((72 : ℤ) * text.length ≤ n) := by
    constructor
    · intro hh
      have h2 : ((72 * text.length : ℤ) : ℚ) ≤ ((n : ℤ) : ℚ) := by
        push_cast
        linarith
      exact_mod_cast h2
    · intro hh
      have h2 : ((72 * text.length : ℤ) : ℚ) ≤ ((n : ℤ) : ℚ) := by exact_mod_cast hh
      push_cast at h2
      linarith
  simp [text_fits, h]

/-- Computation bridge: the truncation index at an integer number of seconds. -/
theorem pyInt_scaled (n : ℤ) (hn : 0 ≤ n) :
    pyInt ((n : ℚ) / 3600 * (8 / 10) * 50) = n / 90 := by
  have hq : ((n : ℚ) / 3600 * (8 / 10) * 50) = (n : ℚ) / ((90 : ℕ) : ℚ) := by
    push_cast
    ring
  have h0 : (0 : ℚ) ≤ (n : ℚ) / 3600 * (8 / 10) * 50 := by
    have : (0 : ℚ) ≤ (n : ℚ) := by exact_mod_cast hn
    positivity
  rw [pyInt, if_pos h0, hq, Rat.floor_intCast_div_natCast]
  norm_num

/-! ## Theorems for the LabelFitter claims -/

/-- C5: for every label text and every bar duration, the fit test returns true
    iff the duration expressed in hours is at least 0.02 times the character
    length of the text. -/
theorem text_fits_iff (text : String) (d : ℚ) :
    text_fits text d = true ↔ durationHours d ≥ (2 / 100 : ℚ) * text.length := by
  simp [text_fits, durationHours, mul_comm]

/-- C9: the fit test is monotone in the duration argument: if the text fits
    at duration D, it fits at every duration greater than D. -/
theorem text_fits_mono (text : String) (d d' : ℚ)
    (h : text_fits text d = true) (hlt : d < d') : text_fits text d' = true := by
  simp only [text_fits, decide_eq_true_eq, ge_iff_le] at h ⊢
  have : d / 3600 ≤ d' / 3600 := by linarith
  linarith

/-- Witness for C9 at text AB, durations 144 s and 288 s. -/
theorem text_fits_mono_witness : text_fits "AB" ((288 : ℤ) : ℚ) = true :=
  text_fits_mono "AB" ((144 : ℤ) : ℚ) ((288 : ℤ) : ℚ)
    (by rw [text_fits_int]; decide)
    (Int.cast_lt.mpr (by decide))

/-- C2 counterexample: a flight entirely before the window (departure 0,
    arrival 60, window 120 to 180) satisfies arrival > departure and
    winEnd > winStart, yet the clipped duration is -60, outside
    [0, arrival - departure]. -/
theorem clip_negative_duration_cex :
    (0 : ℤ) < 60 ∧ (120 : ℤ) < 180 ∧ (clip 0 60 120 180).2 = -60 := by decide

/-- C2 amended: the clipped duration never exceeds arrival - departure, is
    nonnegative whenever the flight interval meets the window
    (winStart ≤ arrival and departure ≤ winEnd), and never increases when the
    window is narrowed. -/
theorem clip_duration_bounds_and_mono :
    (∀ dep arr ws we : ℤ, dep < arr → ws < we →
        (clip dep arr ws we).2 ≤ arr - dep
        ∧ (ws ≤ arr → dep ≤ we → 0 ≤ (clip dep arr ws we).2))
    ∧ (∀ dep arr ws we ws2 we2 : ℤ, ws ≤ ws2 → we2 ≤ we →
        (clip dep arr ws2 we2).2 ≤ (clip dep arr ws we).2) := by
  constructor
  · intro dep arr ws we h1 h2
    rw [clip_snd]
    omega
  · intro dep arr ws we ws2 we2 h1 h2
    rw [clip_snd, clip_snd]
    omega

/-- Witness for C2 amended at flight [10, 50), windows [0, 100) and [20, 40). -/
theorem clip_duration_bounds_and_mono_witness :
    ((clip 10 50 0 100).2 ≤ 50 - 10 ∧ 0 ≤ (clip 10 50 0 100).2)
    ∧ (clip 10 50 20 40).2 ≤ (clip 10 50 0 100).2 :=
  ⟨⟨(clip_duration_bounds_and_mono.1 10 50 0 100 (by decide) (by decide)).1,
    (clip_duration_bounds_and_mono.1 10 50 0 100 (by decide) (by decide)).2
      (by decide) (by decide)⟩,
   clip_duration_bounds_and_mono.2 10 50 0 100 20 40 (by decide) (by decide)⟩

/-- C8 counterexample: the label AB at a 36 second bar fails the fit test and
    renders as three dots alone: zero characters of the original text are
    kept, so there is no minimum clamp of one character. -/
theorem truncation_no_min_clamp_cex :
    text_fits "AB" ((36 : ℤ) : ℚ) = false
    ∧ draw_text_rendered "AB" ((36 : ℤ) : ℚ) = "..." := by
  have hf : text_fits "AB" ((36 : ℤ) : ℚ) = false := by
    rw [text_fits_int]
    decide
  have hp : pyInt (((36 : ℤ) : ℚ) / 3600 * (8 / 10) * 50) = 0 := by
    rw [pyInt_scaled 36 (by decide)]
    decide
  refine ⟨hf, ?_⟩
  rw [draw_text_rendered]
  simp only [hf, Bool.false_eq_true, if_false, hp]
  decide

/-- C8 amended: a label that fails the fit test renders as the original text
    truncated to int(duration_hours * 0.8 * 50) characters with an ellipsis
    appended; that count is never negative, but it may be zero: the code has
    no minimum clamp of one character. -/
theorem draw_text_truncation (text : String) (d : ℚ) (hd : 0 ≤ d)
    (hf : text_fits text d = false) :
    draw_text_rendered text d
      = text.take (pyInt (d / 3600 * (8 / 10) * 50)).toNat ++ "..."
    ∧ 0 ≤ pyInt (d / 3600 * (8 / 10) * 50) := by
  have h0 : (0 : ℚ) ≤ d / 3600 * (8 / 10) * 50 := by positivity
  have hi : 0 ≤ pyInt (d / 3600 * (8 / 10) * 50) := by
    rw [pyInt, if_pos h0]
    exact Int.floor_nonneg.mpr h0
  refine ⟨?_, hi⟩
  rw [draw_text_rendered]
  simp only [hf, Bool.false_eq_true, if_false]
  rw [pySliceTo, if_pos hi]

/-- A 52 character label used to exercise truncation. -/
def longLabel : String :=
  "ABCDEFGHIJKLMNOPQRSTUVWXYZABCDEFGHIJKLMNOPQRSTUVWXYZ"

/-! ## DateParser: parse_dates (app.py lines 11-18).

    formats = [percent-d/percent-m/percent-Y percent-H:percent-M,
               percent-d percent-b percent-H:percent-M (no separator)];
    for fmt in formats: try pd.to_datetime(series, format=fmt) except continue;
    raise ValueError.

    pd.to_datetime with an explicit format follows strptime semantics: numeric
    fields read one or two digits (four for the year), the month abbreviation
    is matched case-insensitively, the whole string must be consumed, and the
    resulting calendar date must exist.  The second format has no year field,
    so the year defaults to 1900.  An element that fails makes the whole
    column raise, which is what the except branch catches. -/

/-- A parsed timestamp: calendar fields as produced by strptime. -/
structure DateTime where
  year : Nat
  month : Nat
  day : Nat
  hour : Nat
  minute : Nat
deriving DecidableEq, Repr

/-- Read up to maxD leading digits; returns (value, digit count, rest). -/
def readNumAux (acc k : Nat) : Nat → List Char → Nat × Nat × List Char
  | 0, cs => (acc, k, cs)
  | _ + 1, [] => (acc, k, [])
  | n + 1, c :: cs =>
    if c.isDigit then readNumAux (acc * 10 + (c.toNat - 48)) (k + 1) n cs
    else (acc, k, c :: cs)

/-- A numeric strptime field: at most maxD digits, value within [lo, hi]. -/
def readNum (maxD lo hi : Nat) (cs : List Char) : Option (Nat × List Char) :=
  let r := readNumAux 0 0 maxD cs
  if r.2.1 = 0 then none
  else if lo ≤ r.1 ∧ r.1 ≤ hi then some (r.1, r.2.2) else none

/-- The year field: exactly four digits. -/
def readYear (cs : List Char) : Option (Nat × List Char) :=
  let r := readNumAux 0 0 4 cs
  if r.2.1 = 4 then some (r.1, r.2.2) else none

/-- A literal character of the format. -/
def readLit (c : Char) (cs : List Char) : Option (List Char) :=
  match cs with
  | c2 :: rest => if c = c2 then some rest else none
  | [] => none

/-- The month abbreviation field, matched case-insensitively. -/
def readMonthAbbrev (cs : List Char) : Option (Nat × List Char) :=
  match cs with
  | a :: b :: c :: rest =>
    let s := String.mk [a.toLower, b.toLower, c.toLower]
    match ["jan", "feb", "mar", "apr", "may", "jun",
           "jul", "aug", "sep", "oct", "nov", "dec"].findIdx? (fun m => m = s) with
    | some i => some (i + 1, rest)
    | none => none
  | _ => none

/-- Whether a year is a Gregorian leap year. -/
def isLeap (y : Nat) : Bool := y % 4 = 0 && (y % 100 ≠ 0 || y % 400 = 0)

/-- Days in a month, the validity check strptime applies when building the
    datetime value. -/
def daysInMonth (y m : Nat) : Nat :=
  if m = 2 then (if isLeap y then 29 else 28)
  else if m = 4 ∨ m = 6 ∨ m = 9 ∨ m = 11 then 30 else 31

/-- strptime for format percent-d/percent-m/percent-Y percent-H:percent-M. -/
def strptime_dmY_HM (s : String) : Option DateTime := do
  let cs := s.toList
  let (d, cs) ← readNum 2 1 31 cs
  let cs ← readLit '/' cs
  let (m, cs) ← readNum 2 1 12 cs
  let cs ← readLit '/' cs
  let (y, cs) ← readYear cs
  let cs ← readLit ' ' cs
  let (h, cs) ← readNum 2 0 23 cs
  let cs ← readLit ':' cs
  let (mi, cs) ← readNum 2 0 59 cs
  if cs.isEmpty ∧ d ≤ daysInMonth y m then pure ⟨y, m, d, h, mi⟩ else none

/-- strptime for format percent-d percent-b percent-H:percent-M (day digits
    directly followed by the month abbreviation; the year defaults to 1900). -/
def strptime_db_HM (s : String) : Option DateTime := do
  let cs := s.toList
  let (d, cs) ← readNum 2 1 31 cs
  let (m, cs) ← readMonthAbbrev cs
  let cs ← readLit ' ' cs
  let (h, cs) ← readNum 2 0 23 cs
  let cs ← readLit ':' cs
  let (mi, cs) ← readNum 2 0 59 cs
  if cs.isEmpty ∧ d ≤ daysInMonth 1900 m then pure ⟨1900, m, d, h, mi⟩ else none

/-- The candidate formats, in the order app.py line 12 lists them. -/
inductive Fmt | dmY_HM | db_HM
deriving DecidableEq, Repr

def strptimeF : Fmt → String → Option DateTime
  | .dmY_HM => strptime_dmY_HM
  | .db_HM => strptime_db_HM

def formats : List Fmt := [.dmY_HM, .db_HM]

/-- pd.to_datetime(series, format=fmt): every element must parse, otherwise
    the whole column fails. -/
def to_datetime (f : Fmt) : List String → Option (List DateTime)
  | [] => some []
  | s :: rest =>
    match strptimeF f s, to_datetime f rest with
    | some dt, some out => some (dt :: out)
    | _, _ => none

def parse_dates_go : List Fmt → List String → Except String (List DateTime)
  | [], _ => .error "Date conversion error: None of the formats matched."
  | f :: rest, col =>
    match to_datetime f col with
    | some out => .ok out
    | none => parse_dates_go rest col

/-- parse_dates (app.py lines 11-18). -/
def parse_dates (col : List String) : Except String (List DateTime) :=
  parse_dates_go formats col

/-- Days from 1970-01-01 of a Gregorian calendar date (standard civil-date
    conversion), used to turn parsed timestamps into comparable instants. -/
def daysFromCivil (y m d : Int) : Int :=
  let y2 := if m ≤ 2 then y - 1 else y
  let era := Int.fdiv y2 400
  let yoe := y2 - era * 400
  let mp := if 2 < m then m - 3 else m + 9
  let doy := Int.fdiv (153 * mp + 2) 5 + d - 1
  let doe := yoe * 365 + Int.fdiv yoe 4 - Int.fdiv yoe 100 + doy
  era * 146097 + doe - 719468

/-- A timestamp as minutes from the epoch, the canonical instant the rest of
    the pipeline compares and subtracts. -/
def toMinutes (dt : DateTime) : Int :=
  daysFromCivil dt.year dt.month dt.day * 1440 + dt.hour * 60 + dt.minute

theorem to_datetime_eq_some (f : Fmt) (col : List String) (out : List DateTime) :
    to_datetime f col = some out
      ↔ List.Forall₂ (fun s dt => strptimeF f s = some dt) col out := by
  induction col generalizing out with
  | nil =>
    simp [to_datetime, List.forall₂_nil_left_iff, eq_comm]
  | cons s rest ih =>
    constructor
    · intro h
      rw [to_datetime] at h
      cases h1 : strptimeF f s with
      | none =>
        rw [h1] at h
        cases h
      | some dt =>
        rw [h1] at h
        cases h2 : to_datetime f rest with
        | none =>
          rw [h2] at h
          cases h
        | some out2 =>
          rw [h2] at h
          cases h
          exact List.Forall₂.cons h1 ((ih out2).mp h2)
    · intro h
      cases h with
      | cons hb hu =>
        rw [to_datetime, hb, (ih _).mpr hu]

theorem to_datetime_eq_none (f : Fmt) (col : List String) :
    to_datetime f col = none ↔ ∃ s ∈ col, strptimeF f s = none := by
  induction col with
  | nil => simp [to_datetime]
  | cons s rest ih =>
    constructor
    · intro h
      rw [to_datetime] at h
      cases h1 : strptimeF f s with
      | none => exact ⟨s, List.mem_cons_self s rest, h1⟩
      | some dt =>
        rw [h1] at h
        cases h2 : to_datetime f rest with
        | none =>
          obtain ⟨x, hx, hn⟩ := ih.mp h2
          exact ⟨x, List.mem_cons_of_mem s hx, hn⟩
        | some out2 =>
          rw [h2] at h
          cases h
    · rintro ⟨x, hx, hn⟩
      rcases List.mem_cons.mp hx with rfl | hx2
      · cases h2 : to_datetime f rest <;> simp [to_datetime, hn, h2]
      · have hr : to_datetime f rest = none := ih.mpr ⟨x, hx2, hn⟩
        cases h1 : strptimeF f s <;> simp [to_datetime, h1, hr]

/-- C6: the date parser tries the two candidate formats in a fixed order;
    the first format that parses every value in the column is used for the
    whole column (no per-value fallback), and if no candidate format parses
    the entire column the parser fails with the date-format error. -/
theorem parse_dates_column_contract (col : List String) :
    ((∃ e, parse_dates col = .error e)
      ↔ ((∃ s ∈ col, strptimeF .dmY_HM s = none)
          ∧ (∃ s ∈ col, strptimeF .db_HM s = none)))
    ∧ (∀ out, parse_dates col = .ok out →
        (List.Forall₂ (fun s dt => strptimeF .dmY_HM s = some dt) col out
         ∨ ((∃ s ∈ col, strptimeF .dmY_HM s = none)
            ∧ List.Forall₂ (fun s dt => strptimeF .db_HM s = some dt) col out))) := by
  cases h1 : to_datetime Fmt.dmY_HM col with
  | some out1 =>
    have hpd : parse_dates col = .ok out1 := by
      simp [parse_dates, formats, parse_dates_go, h1]
    constructor
    · constructor
      · rintro ⟨e, he⟩
        rw [hpd] at he
        cases he
      · rintro ⟨⟨x, hx, hn⟩, _⟩
        have hh := (to_datetime_eq_none Fmt.dmY_HM col).mpr ⟨x, hx, hn⟩
        rw [h1] at hh
        cases hh
    · intro out hout
      rw [hpd] at hout
      injection hout with heq
      subst heq
      exact Or.inl ((to_datetime_eq_some _ _ _).mp h1)
  | none =>
    cases h2 : to_datetime Fmt.db_HM col with
    | some out2 =>
      have hpd : parse_dates col = .ok out2 := by
        simp [parse_dates, formats, parse_dates_go, h1, h2]
      constructor
      · constructor
        · rintro ⟨e, he⟩
          rw [hpd] at he
          cases he
        · rintro ⟨_, ⟨x, hx, hn⟩⟩
          have hh := (to_datetime_eq_none Fmt.db_HM col).mpr ⟨x, hx, hn⟩
          rw [h2] at hh
          cases hh
      · intro out hout
        rw [hpd] at hout
        injection hout with heq
        subst heq
        exact Or.inr ⟨(to_datetime_eq_none _ _).mp h1,
          (to_datetime_eq_some _ _ _).mp h2⟩
    | none =>
      have hpd : parse_dates col
          = .error "Date conversion error: None of the formats matched." := by
        simp [parse_dates, formats, parse_dates_go, h1, h2]
      constructor
      · constructor
        · intro _
          exact ⟨(to_datetime_eq_none _ _).mp h1, (to_datetime_eq_none _ _).mp h2⟩
        · intro _
          exact ⟨_, hpd⟩
      · intro out hout
        rw [hpd] at hout
        cases hout

/-- Witness for C6 at a one-element column in the first format. -/
theorem parse_dates_column_contract_witness :
    List.Forall₂ (fun s dt => strptimeF .dmY_HM s = some dt)
        ["01/06/2024 10:00"] [⟨2024, 6, 1, 10, 0⟩]
      ∨ ((∃ s ∈ ["01/06/2024 10:00"], strptimeF .dmY_HM s = none)
         ∧ List.Forall₂ (fun s dt => strptimeF .db_HM s = some dt)
             ["01/06/2024 10:00"] [⟨2024, 6, 1, 10, 0⟩]) :=
  (parse_dates_column_contract ["01/06/2024 10:00"]).2 [⟨2024, 6, 1, 10, 0⟩] rfl

/-- Witness for C8 amended: the 52 character label at a 3600 second bar. -/
theorem draw_text_truncation_witness :
    draw_text_rendered longLabel ((3600 : ℤ) : ℚ)
      = longLabel.take (pyInt (((3600 : ℤ) : ℚ) / 3600 * (8 / 10) * 50)).toNat ++ "..."
    ∧ 0 ≤ pyInt (((3600 : ℤ) : ℚ) / 3600 * (8 / 10) * 50) :=
  draw_text_truncation longLabel ((3600 : ℤ) : ℚ)
    (Int.cast_nonneg.mpr (by decide))
    (by rw [text_fits_int]; decide)

/-! ## Paginator and LayoutEngine: process_and_plot (app.py lines 84-110)
    and generate_plot (lines 32-82).

    current_date = df.fecha_salida.min().normalize();
    end_of_data = df.fecha_llegada.max();
    while current_date <= end_of_data:
      start = current_date + 5h; end = start + 27h - 1min;
      page over flights with start <= fecha_salida < end, if any;
      current_date += 1 day.
    The while loop is embedded as the list of its successive current_date
    values: day0 + 1440 * k for k = 0 .. (end_of_data - day0) fdiv 1440. -/

/-- pandas Series.min on a nonempty column. -/
def listMin : List Int → Int
  | [] => 0
  | x :: xs => xs.foldl min x

/-- pandas Series.max on a nonempty column. -/
def listMax : List Int → Int
  | [] => 0
  | x :: xs => xs.foldl max x

/-- Timestamp.normalize: floor to midnight of the calendar day. -/
def normalizeDay (t : Int) : Int := Int.fdiv t 1440 * 1440

/-- Iteration count of the while loop at app.py line 101. -/
def numWindows (day0 ed : Int) : Nat :=
  if day0 ≤ ed then (Int.fdiv (ed - day0) 1440).toNat + 1 else 0

/-- The successive values taken by current_date. -/
def windowDays (day0 ed : Int) : List Int :=
  (List.range (numWindows day0 ed)).map (fun k : ℕ => day0 + 1440 * (k : Int))

/-- current_start_time = current_date + 5 hours. -/
def windowStartOf (d : Int) : Int := d + 5 * 60

/-- current_end_time = current_start_time + 27 hours - 1 minute. -/
def windowEndOf (d : Int) : Int := d + 5 * 60 + 27 * 60 - 1

/-- The page filter of app.py line 104:
    fecha_salida >= start and fecha_salida < end. -/
def inWindow (f : FlightRecord) (d : Int) : Bool :=
  decide (windowStartOf d ≤ f.departure) && decide (f.departure < windowEndOf d)

/-- One bar emitted by generate_plot: lane index, source row, clipped
    geometry. -/
structure RenderInstruction where
  lane : Nat
  flight : FlightRecord
  barStart : Int
  barDuration : Int
deriving DecidableEq, Repr

/-- generate_plot (app.py lines 32-54): for i, aeronave in
    enumerate(reversed(order)), one bar per flight of that aircraft, with the
    interval clipped to the page window. -/
def generate_plot (flights : List FlightRecord) (ws we : Int) : List RenderInstruction :=
  (order.reverse.enum).flatMap (fun ia =>
    (flights.filter (fun f => f.tail == ia.2)).map (fun v =>
      { lane := ia.1, flight := v,
        barStart := (clip v.departure v.arrival ws we).1,
        barDuration := (clip v.departure v.arrival ws we).2 }))

/-- One emitted page: window bounds, the selected flights, the render
    instructions. -/
structure Page where
  winStart : Int
  winEnd : Int
  flights : List FlightRecord
  instructions : List RenderInstruction
deriving DecidableEq, Repr

/-- Calendar-day floor of the minimum departure (app.py line 98). -/
def dataDay0 (flights : List FlightRecord) : Int :=
  normalizeDay (listMin (flights.map FlightRecord.departure))

/-- Maximum arrival instant (app.py line 99). -/
def dataEnd (flights : List FlightRecord) : Int :=
  listMax (flights.map FlightRecord.arrival)

/-- process_and_plot pagination loop (app.py lines 97-110) on parsed rows:
    one page per window whose selection is nonempty.  An empty frame runs the
    loop zero times (its min is missing and the comparison is false). -/
def process_and_plot (flights : List FlightRecord) : List Page :=
  match flights with
  | [] => []
  | _ :: _ =>
    (windowDays (dataDay0 flights) (dataEnd flights)).filterMap (fun d =>
      let sel := flights.filter (fun f => inWindow f d)
      if sel.isEmpty then none
      else some { winStart := windowStartOf d, winEnd := windowEndOf d,
                  flights := sel,
                  instructions := generate_plot sel (windowStartOf d) (windowEndOf d) })

/-- Number of paginator windows that select a given flight. -/
def selCount (flights : List FlightRecord) (f : FlightRecord) : Nat :=
  (windowDays (dataDay0 flights) (dataEnd flights)).countP (fun d => inWindow f d)

/-- All render instructions across the produced pages. -/
def allInstructions (flights : List FlightRecord) : List RenderInstruction :=
  (process_and_plot flights).flatMap Page.instructions

/-! ## Helper lemmas about the pipeline -/

theorem foldl_min_le_acc (ys : List Int) : ∀ acc : Int, ys.foldl min acc ≤ acc := by
  induction ys with
  | nil => intro acc; exact le_refl acc
  | cons z zs ih =>
    intro acc
    calc (z :: zs).foldl min acc = zs.foldl min (min acc z) := rfl
    _ ≤ min acc z := ih (min acc z)
    _ ≤ acc := min_le_left acc z

theorem foldl_min_le_mem (ys : List Int) :
    ∀ acc x, x ∈ ys → ys.foldl min acc ≤ x := by
  induction ys with
  | nil => intro acc x hx; cases hx
  | cons z zs ih =>
    intro acc x hx
    rcases List.mem_cons.mp hx with rfl | hx2
    · calc (x :: zs).foldl min acc = zs.foldl min (min acc x) := rfl
      _ ≤ min acc x := foldl_min_le_acc zs (min acc x)
      _ ≤ x := min_le_right acc x
    · exact ih (min acc z) x hx2

theorem acc_le_foldl_max (ys : List Int) : ∀ acc : Int, acc ≤ ys.foldl max acc := by
  induction ys with
  | nil => intro acc; exact le_refl acc
  | cons z zs ih =>
    intro acc
    calc acc ≤ max acc z := le_max_left acc z
    _ ≤ zs.foldl max (max acc z) := ih (max acc z)

theorem mem_le_foldl_max (ys : List Int) :
    ∀ acc x, x ∈ ys → x ≤ ys.foldl max acc := by
  induction ys with
  | nil => intro acc x hx; cases hx
  | cons z zs ih =>
    intro acc x hx
    rcases List.mem_cons.mp hx with rfl | hx2
    · calc x ≤ max acc x := le_max_right acc x
      _ ≤ zs.foldl max (max acc x) := acc_le_foldl_max zs (max acc x)
    · exact ih (max acc z) x hx2

theorem listMin_le_of_mem {x : Int} {l : List Int} (h : x ∈ l) : listMin l ≤ x := by
  cases l with
  | nil => cases h
  | cons y ys =>
    rw [listMin]
    rcases List.mem_cons.mp h with rfl | h2
    · exact foldl_min_le_acc ys x
    · exact foldl_min_le_mem ys y x h2

theorem le_listMax_of_mem {x : Int} {l : List Int} (h : x ∈ l) : x ≤ listMax l := by
  cases l with
  | nil => cases h
  | cons y ys =>
    rw [listMax]
    rcases List.mem_cons.mp h with rfl | h2
    · exact acc_le_foldl_max ys x
    · exact mem_le_foldl_max ys y x h2

theorem normalizeDay_le (t : Int) : normalizeDay t ≤ t := by
  rw [normalizeDay, Int.fdiv_eq_ediv _ (by norm_num)]
  omega

theorem normalizeDay_mult (t : Int) : ∃ j : Int, normalizeDay t = 1440 * j :=
  ⟨Int.fdiv t 1440, by rw [normalizeDay, mul_comm]⟩

/-- day0 is at or before every departure of a nonempty flight list. -/
theorem dataDay0_le {flights : List FlightRecord} {f : FlightRecord}
    (h : f ∈ flights) : dataDay0 flights ≤ f.departure := by
  calc dataDay0 flights ≤ listMin (flights.map FlightRecord.departure) :=
        normalizeDay_le _
  _ ≤ f.departure := listMin_le_of_mem (List.mem_map_of_mem FlightRecord.departure h)

/-- Every arrival of the list is at or before end_of_data. -/
theorem le_dataEnd {flights : List FlightRecord} {f : FlightRecord}
    (h : f ∈ flights) : f.arrival ≤ dataEnd flights :=
  le_listMax_of_mem (List.mem_map_of_mem FlightRecord.arrival h)

/-- A flight selected by a generated window appears on an emitted page with
    that window. -/
theorem page_of_selected (flights : List FlightRecord) (f : FlightRecord) (d : Int)
    (hmem : f ∈ flights) (hd : d ∈ windowDays (dataDay0 flights) (dataEnd flights))
    (hw : inWindow f d = true) :
    ∃ p ∈ process_and_plot flights, p.winStart = windowStartOf d ∧ f ∈ p.flights := by
  cases flights with
  | nil => cases hmem
  | cons g gs =>
    have hfsel : f ∈ (g :: gs).filter (fun f2 => inWindow f2 d) :=
      List.mem_filter.mpr ⟨hmem, hw⟩
    have hne : ((g :: gs).filter (fun f2 => inWindow f2 d)).isEmpty = false := by
      rcases hh : (g :: gs).filter (fun f2 => inWindow f2 d) with _ | _
      · rw [hh] at hfsel
        cases hfsel
      · rfl
    refine ⟨{ winStart := windowStartOf d, winEnd := windowEndOf d,
              flights := (g :: gs).filter (fun f2 => inWindow f2 d),
              instructions := generate_plot ((g :: gs).filter (fun f2 => inWindow f2 d))
                (windowStartOf d) (windowEndOf d) }, ?_, rfl, hfsel⟩
    rw [process_and_plot]
    apply List.mem_filterMap.mpr
    refine ⟨d, hd, ?_⟩
    simp only [hne, Bool.false_eq_true, if_false]

/-- Structure of an emitted page. -/
theorem mem_process_and_plot (flights : List FlightRecord) (p : Page)
    (hp : p ∈ process_and_plot flights) :
    ∃ d ∈ windowDays (dataDay0 flights) (dataEnd flights),
      p.winStart = windowStartOf d ∧ p.winEnd = windowEndOf d
      ∧ p.flights = flights.filter (fun f => inWindow f d)
      ∧ p.instructions = generate_plot (flights.filter (fun f => inWindow f d))
          (windowStartOf d) (windowEndOf d) := by
  cases flights with
  | nil => simp [process_and_plot] at hp
  | cons g gs =>
    rw [process_and_plot] at hp
    obtain ⟨d, hd, hFd⟩ := List.mem_filterMap.mp hp
    refine ⟨d, hd, ?_⟩
    cases hE : ((g :: gs).filter (fun f => inWindow f d)).isEmpty with
    | true =>
      simp only [hE, if_true] at hFd
      cases hFd
    | false =>
      simp only [hE, Bool.false_eq_true, if_false] at hFd
      cases hFd
      exact ⟨rfl, rfl, rfl, rfl⟩

/-- Structure of an emitted render instruction. -/
theorem mem_generate_plot (flights : List FlightRecord) (ws we : Int)
    (ri : RenderInstruction) (hri : ri ∈ generate_plot flights ws we) :
    ri.flight ∈ flights ∧ ri.flight.tail ∈ order
    ∧ ri.barStart = (clip ri.flight.departure ri.flight.arrival ws we).1
    ∧ ri.barDuration = (clip ri.flight.departure ri.flight.arrival ws we).2 := by
  rw [generate_plot] at hri
  obtain ⟨ia, hia, hmem2⟩ := List.mem_flatMap.mp hri
  obtain ⟨i, a⟩ := ia
  obtain ⟨v, hv, rfl⟩ := List.mem_map.mp hmem2
  obtain ⟨hvmem, hvtail⟩ := List.mem_filter.mp hv
  refine ⟨hvmem, ?_, rfl, rfl⟩
  have ha : a ∈ order.reverse := by
    rw [List.enum_eq_zip_range] at hia
    exact (List.of_mem_zip hia).2
  rw [List.mem_reverse] at ha
  have hveq : v.tail = a := by simpa using hvtail
  rwa [hveq]

/-! ## Theorems for the pagination and layout claims -/

/-- C7: a flight whose tail identifier does not occur in the configured
    aircraft order produces zero render instructions on every page. -/
theorem unknown_tail_no_instructions (flights : List FlightRecord) (t : String)
    (ht : t ∉ order) :
    (allInstructions flights).countP (fun ri => ri.flight.tail == t) = 0 := by
  rw [allInstructions, List.countP_eq_zero]
  intro ri hri
  obtain ⟨p, hp, hmem⟩ := List.mem_flatMap.mp hri
  obtain ⟨d, hd, h1, h2, h3, h4⟩ := mem_process_and_plot flights p hp
  rw [h4] at hmem
  obtain ⟨_, htail, _, _⟩ := mem_generate_plot _ _ _ ri hmem
  simp only [beq_iff_eq]
  intro hEq
  rw [hEq] at htail
  exact ht htail

/-- A one-flight dataset used as concrete input for witnesses. -/
def demoFlight : FlightRecord :=
  ⟨"N330QT", "QT1", " ", " ", " ", "BOG", "MDE", 600, 720⟩

/-- The instruction process_and_plot emits for demoFlight. -/
def demoInstr : RenderInstruction := ⟨6, demoFlight, 600, 120⟩

/-- The page process_and_plot emits for demoFlight. -/
def demoPage : Page := ⟨300, 1919, [demoFlight], [demoInstr]⟩

/-- Witness for C7 on the demo dataset and tail N999XX. -/
theorem unknown_tail_no_instructions_witness :
    (allInstructions [demoFlight]).countP (fun ri => ri.flight.tail == "N999XX") = 0 :=
  unknown_tail_no_instructions [demoFlight] "N999XX" (by decide)

/-- C10: every rendered bar starts exactly at the actual departure of its
    flight: the page selection guarantees departure >= winStart, so the
    left-clipping branch never fires, and a flight appears only on pages
    whose window selected its departure. -/
theorem rendered_bar_starts_at_departure (flights : List FlightRecord) (p : Page)
    (hp : p ∈ process_and_plot flights) (ri : RenderInstruction)
    (hri : ri ∈ p.instructions) :
    ri.barStart = ri.flight.departure
    ∧ p.winStart ≤ ri.flight.departure ∧ ri.flight.departure < p.winEnd := by
  obtain ⟨d, hd, h1, h2, h3, h4⟩ := mem_process_and_plot flights p hp
  rw [h4] at hri
  obtain ⟨hmem, htail, hbs, hbd⟩ := mem_generate_plot _ _ _ ri hri
  have hwin : inWindow ri.flight d = true := (List.mem_filter.mp hmem).2
  rw [inWindow, Bool.and_eq_true, decide_eq_true_eq, decide_eq_true_eq] at hwin
  rw [windowStartOf] at hwin
  refine ⟨?_, ?_, ?_⟩
  · rw [hbs, clip_fst, windowStartOf]
    omega
  · rw [h1, windowStartOf]
    omega
  · rw [h2, windowEndOf]
    rw [windowEndOf] at hwin
    omega

/-- Witness for C10 on the demo dataset. -/
theorem rendered_bar_starts_at_departure_witness :
    demoInstr.barStart = demoInstr.flight.departure
    ∧ demoPage.winStart ≤ demoInstr.flight.departure
    ∧ demoInstr.flight.departure < demoPage.winEnd :=
  rendered_bar_starts_at_departure [demoFlight] demoPage (by decide) demoInstr
    (by decide)

theorem countP_pair_le_counts (a b : Nat) (l : List Nat) :
    l.countP (fun k => decide (k = a) || decide (k = b)) ≤ l.count a + l.count b := by
  induction l with
  | nil => simp
  | cons x xs ih =>
    rw [List.countP_cons, List.count_cons, List.count_cons]
    by_cases hxa : x = a <;> by_cases hxb : x = b <;> simp [hxa, hxb] <;> omega

theorem countP_pair_le (a b : Nat) (l : List Nat) (hnd : l.Nodup) :
    l.countP (fun k => decide (k = a) || decide (k = b)) ≤ 2 := by
  have h1 := countP_pair_le_counts a b l
  have h2 : l.count a ≤ 1 := List.nodup_iff_count_le_one.mp hnd a
  have h3 : l.count b ≤ 1 := List.nodup_iff_count_le_one.mp hnd b
  omega

/-- Two flights on consecutive days; the second departs at 0530, inside the
    3 hour window overlap. -/
def cexFlightA : FlightRecord :=
  ⟨"N330QT", "QT100", " ", " ", " ", "BOG", "MDE", 600, 700⟩

def cexFlightB : FlightRecord :=
  ⟨"N330QT", "QT200", " ", " ", " ", "MDE", "BOG", 1770, 1900⟩

def cexFlights : List FlightRecord := [cexFlightA, cexFlightB]

/-- C1 counterexample: flight B departs within the data span, yet both the
    day-0 window and the day-1 window select it: pagination is duplicating,
    not exactly-one. -/
theorem paginator_double_selection_cex :
    cexFlightB ∈ cexFlights
    ∧ listMin (cexFlights.map FlightRecord.departure) ≤ cexFlightB.departure
    ∧ cexFlightB.arrival ≤ dataEnd cexFlights
    ∧ cexFlightB.departure < cexFlightB.arrival
    ∧ selCount cexFlights cexFlightB = 2 := by decide

/-- C1 amended: a flight departing before the first window start (before
    0500 on the first calendar day) is selected by zero windows; every other
    flight is selected by at least one and at most two windows (two exactly
    in the 2 hour 59 minute overlap of consecutive windows). -/
theorem paginator_selection_bounds (flights : List FlightRecord)
    (f : FlightRecord) (hmem : f ∈ flights) (harr : f.departure ≤ f.arrival) :
    (f.departure < windowStartOf (dataDay0 flights) → selCount flights f = 0)
    ∧ (windowStartOf (dataDay0 flights) ≤ f.departure →
        1 ≤ selCount flights f ∧ selCount flights f ≤ 2) := by
  have hd0 : dataDay0 flights ≤ f.departure := dataDay0_le hmem
  have hde : f.arrival ≤ dataEnd flights := le_dataEnd hmem
  have hcount : selCount flights f
      = (List.range (numWindows (dataDay0 flights) (dataEnd flights))).countP
          (fun k : ℕ => inWindow f (dataDay0 flights + 1440 * (k : Int))) := by
    rw [selCount, windowDays, List.countP_map]
    rfl
  constructor
  · intro hlt
    rw [windowStartOf] at hlt
    rw [hcount, List.countP_eq_zero]
    intro k _
    rw [inWindow, windowStartOf, windowEndOf]
    simp only [Bool.and_eq_true, decide_eq_true_eq, not_and]
    intro h1
    omega
  · intro hge
    rw [windowStartOf] at hge
    have hNpos : dataDay0 flights ≤ dataEnd flights := by omega
    have hNval : numWindows (dataDay0 flights) (dataEnd flights)
        = ((dataEnd flights - dataDay0 flights) / 1440).toNat + 1 := by
      rw [numWindows, if_pos hNpos, Int.fdiv_eq_ediv _ (by norm_num)]
    have hu0 : (0 : Int) ≤ f.departure - dataDay0 flights - 300 := by omega
    have hk0N : (f.departure - dataDay0 flights - 300).toNat / 1440
        < numWindows (dataDay0 flights) (dataEnd flights) := by
      rw [hNval]
      omega
    have hwin0 : inWindow f (dataDay0 flights
        + 1440 * (((f.departure - dataDay0 flights - 300).toNat / 1440 : ℕ) : Int))
        = true := by
      rw [inWindow, windowStartOf, windowEndOf]
      simp only [Bool.and_eq_true, decide_eq_true_eq]
      omega
    constructor
    · rw [hcount]
      have hpos : 0 < (List.range (numWindows (dataDay0 flights)
          (dataEnd flights))).countP
          (fun k : ℕ => inWindow f (dataDay0 flights + 1440 * (k : Int))) :=
        List.countP_pos_iff.mpr
          ⟨(f.departure - dataDay0 flights - 300).toNat / 1440,
           List.mem_range.mpr hk0N, hwin0⟩
      omega
    · rw [hcount]
      calc (List.range (numWindows (dataDay0 flights) (dataEnd flights))).countP
            (fun k : ℕ => inWindow f (dataDay0 flights + 1440 * (k : Int)))
          ≤ (List.range (numWindows (dataDay0 flights) (dataEnd flights))).countP
            (fun k : ℕ =>
              decide (k = (f.departure - dataDay0 flights - 300).toNat / 1440)
              || decide (k = (f.departure - dataDay0 flights - 300).toNat / 1440 - 1)) := by
            apply List.countP_mono_left
            intro k _ hk
            rw [inWindow, windowStartOf, windowEndOf] at hk
            simp only [Bool.and_eq_true, decide_eq_true_eq] at hk
            simp only [Bool.or_eq_true, decide_eq_true_eq]
            omega
        _ ≤ 2 := countP_pair_le _ _ _ (List.nodup_range _)

/-- Witness for C1 amended at the two-flight counterexample dataset. -/
theorem paginator_selection_bounds_witness :
    1 ≤ selCount cexFlights cexFlightB ∧ selCount cexFlights cexFlightB ≤ 2 :=
  (paginator_selection_bounds cexFlights cexFlightB (by decide) (by decide)).2
    (by decide)

/-- A single flight departing 0400 on the first (and only) calendar day of
    the data. -/
def earlyFlight : FlightRecord :=
  ⟨"N330QT", "QT300", " ", " ", " ", "BOG", "MDE", 240, 360⟩

/-- C3 counterexample: the 0400 flight is the earliest departure, so the
    windows start on its own calendar day, there is no previous-day window,
    no window selects it, and no page at all is produced. -/
theorem early_flight_first_day_dropped_cex :
    earlyFlight.departure % 1440 = 240
    ∧ process_and_plot [earlyFlight] = []
    ∧ selCount [earlyFlight] earlyFlight = 0 := by decide

/-- C3 amended: a flight departing 0400 on calendar day m is selected by the
    previous day window and not by the window of its own day, and appears on
    an emitted page, provided its day lies strictly after the first data day
    (otherwise the previous-day window is never generated). -/
theorem early_flight_prev_day_window (flights : List FlightRecord)
    (f : FlightRecord) (m : Int) (hmem : f ∈ flights)
    (hdep : f.departure = 1440 * m + 240)
    (hfirst : dataDay0 flights < 1440 * m)
    (harr : f.departure ≤ f.arrival) :
    inWindow f (1440 * m - 1440) = true
    ∧ inWindow f (1440 * m) = false
    ∧ (1440 * m - 1440) ∈ windowDays (dataDay0 flights) (dataEnd flights)
    ∧ ∃ p ∈ process_and_plot flights,
        p.winStart = windowStartOf (1440 * m - 1440) ∧ f ∈ p.flights := by
  have hd0 : dataDay0 flights ≤ f.departure := dataDay0_le hmem
  have hde : f.arrival ≤ dataEnd flights := le_dataEnd hmem
  obtain ⟨j, hj⟩ : ∃ j : Int, dataDay0 flights = 1440 * j :=
    normalizeDay_mult (listMin (flights.map FlightRecord.departure))
  have h1 : inWindow f (1440 * m - 1440) = true := by
    rw [inWindow, windowStartOf, windowEndOf]
    simp only [Bool.and_eq_true, decide_eq_true_eq]
    omega
  have hmm2 : (1440 * m - 1440)
      ∈ windowDays (dataDay0 flights) (dataEnd flights) := by
    rw [windowDays]
    apply List.mem_map.mpr
    refine ⟨((1440 * m - 1440 - dataDay0 flights) / 1440).toNat,
      List.mem_range.mpr ?_, ?_⟩
    · rw [numWindows, if_pos (by omega), Int.fdiv_eq_ediv _ (by norm_num)]
      omega
    · omega
  refine ⟨h1, ?_, hmm2, ?_⟩
  · have hlt : ¬ (windowStartOf (1440 * m) ≤ f.departure) := by
      rw [windowStartOf]
      omega
    rw [inWindow, decide_eq_false hlt, Bool.false_and]
  · obtain ⟨p, hp, hws, hf⟩ := page_of_selected flights f (1440 * m - 1440) hmem hmm2 h1
    exact ⟨p, hp, hws, hf⟩

/-- A second-day 0400 flight together with a first-day flight. -/
def secondDayEarlyFlight : FlightRecord :=
  ⟨"N330QT", "QT2", " ", " ", " ", "BOG", "MDE", 1680, 1800⟩

/-- Witness for C3 amended: data spanning two days, the 0400 flight on the
    second day. -/
theorem early_flight_prev_day_window_witness :
    inWindow secondDayEarlyFlight (1440 * 1 - 1440) = true
    ∧ inWindow secondDayEarlyFlight (1440 * 1) = false
    ∧ (1440 * 1 - 1440)
        ∈ windowDays (dataDay0 [demoFlight, secondDayEarlyFlight])
            (dataEnd [demoFlight, secondDayEarlyFlight])
    ∧ ∃ p ∈ process_and_plot [demoFlight, secondDayEarlyFlight],
        p.winStart = windowStartOf (1440 * 1 - 1440)
        ∧ secondDayEarlyFlight ∈ p.flights :=
  early_flight_prev_day_window [demoFlight, secondDayEarlyFlight]
    secondDayEarlyFlight 1 (by decide) (by decide) (by decide) (by decide)

/-! ## Boundary: process_and_plot on the raw frame (app.py lines 84-110).

    The try block covers only the date parsing (lines 85-91): a missing STD
    or STA column raises KeyError inside the try and is returned as the
    structured message, an unparseable column as the date error.  The fillna
    calls at lines 93-95 run OUTSIDE the try, so a missing Trip, Notas or
    Tripadi column raises an uncaught KeyError.  generate_plot reads the
    Reg. column (line 34) as soon as the first nonempty window is plotted,
    and reads Flight, From, To per drawn row (lines 51-59), so those columns
    only raise when such a page or row exists.  Python renders the missing
    key quoted inside the message; the quotes are omitted here. -/

/-- The uploaded frame: each required column may be absent as a whole.
    Free-text cells may be NaN, modelled as Option entries. -/
structure RawTable where
  reg : Option (List String)
  std : Option (List String)
  sta : Option (List String)
  flightNumbers : Option (List String)
  trip : Option (List (Option String))
  notas : Option (List (Option String))
  tripadi : Option (List (Option String))
  origin : Option (List String)
  dest : Option (List String)

/-- Result of one processing request: pages, a handled (returned) error, or
    an uncaught exception propagating out of process_and_plot. -/
inductive Outcome
  | pages (ps : List Page)
  | handled (msg : String)
  | crash (msg : String)
deriving DecidableEq, Repr

/-- fillna on a text column (app.py lines 93-95). -/
def fillna (col : List (Option String)) : List String :=
  col.map (fun x => x.getD " ")

/-- Row-wise assembly of the parsed frame. -/
def buildRecords (regC flightC tripC notasC tripadiC fromC toC : List String)
    (deps arrs : List Int) : List FlightRecord :=
  (List.range deps.length).map (fun i =>
    { tail := regC.getD i ""
      flightNumber := flightC.getD i ""
      trip := tripC.getD i " "
      notas := notasC.getD i " "
      tripadi := tripadiC.getD i " "
      origin := fromC.getD i ""
      dest := toC.getD i ""
      departure := deps.getD i 0
      arrival := arrs.getD i 0 })

/-- Whether the pagination loop calls generate_plot at least once. -/
def anyWindowNonempty (deps arrs : List Int) : Bool :=
  match deps with
  | [] => false
  | _ :: _ =>
    (windowDays (normalizeDay (listMin deps)) (listMax arrs)).any
      (fun d => deps.any (fun x =>
        decide (windowStartOf d ≤ x) && decide (x < windowEndOf d)))

/-- Whether some plotted page iterates at least one row, which is when the
    per-row columns Flight, From and To are first read. -/
def anyRowDrawn (regC : List String) (deps arrs : List Int) : Bool :=
  match deps with
  | [] => false
  | _ :: _ =>
    (windowDays (normalizeDay (listMin deps)) (listMax arrs)).any
      (fun d => (regC.zip deps).any (fun rx =>
        decide (windowStartOf d ≤ rx.2) && decide (rx.2 < windowEndOf d)
        && order.contains rx.1))

/-- process_and_plot including the column accesses of app.py lines 84-110
    and of generate_plot. -/
def process_and_plot_table (t : RawTable) : Outcome :=
  match t.std with
  | none => .handled "Missing column in input data: STD"
  | some stdCol =>
  match parse_dates stdCol with
  | .error e => .handled ("Date conversion error: " ++ e)
  | .ok stdDts =>
  match t.sta with
  | none => .handled "Missing column in input data: STA"
  | some staCol =>
  match parse_dates staCol with
  | .error e => .handled ("Date conversion error: " ++ e)
  | .ok staDts =>
  match t.trip with
  | none => .crash "KeyError: Trip"
  | some tripC =>
  match t.notas with
  | none => .crash "KeyError: Notas"
  | some notasC =>
  match t.tripadi with
  | none => .crash "KeyError: Tripadi"
  | some tripadiC =>
    let deps := stdDts.map toMinutes
    let arrs := staDts.map toMinutes
    if anyWindowNonempty deps arrs then
      match t.reg with
      | none => .crash "KeyError: Reg."
      | some regC =>
        if anyRowDrawn regC deps arrs then
          match t.flightNumbers, t.origin, t.dest with
          | none, _, _ => .crash "KeyError: Flight"
          | some _, none, _ => .crash "KeyError: From"
          | some _, some _, none => .crash "KeyError: To"
          | some flightC, some fromC, some toC =>
            .pages (process_and_plot (buildRecords regC flightC (fillna tripC)
              (fillna notasC) (fillna tripadiC) fromC toC deps arrs))
        else
          .pages (process_and_plot (buildRecords regC
            (t.flightNumbers.getD (List.replicate deps.length ""))
            (fillna tripC) (fillna notasC) (fillna tripadiC)
            (t.origin.getD (List.replicate deps.length ""))
            (t.dest.getD (List.replicate deps.length "")) deps arrs))
    else .pages []

/-- A frame with parseable dates whose Trip column is missing. -/
def missingTripTable : RawTable :=
  { reg := some ["N330QT"]
    std := some ["01/06/2024 10:00"]
    sta := some ["01/06/2024 12:00"]
    flightNumbers := some ["QT1"]
    trip := none
    notas := some [some " "]
    tripadi := some [some " "]
    origin := some ["BOG"]
    dest := some ["MDE"] }

/-- C4 counterexample: a dataset missing the required Trip column (with STD
    and STA present and parseable) does not produce the structured missing
    column error: the fillna call raises an uncaught KeyError. -/
theorem missing_trip_column_crash_cex :
    missingTripTable.trip = none
    ∧ missingTripTable.std ≠ none
    ∧ missingTripTable.sta ≠ none
    ∧ process_and_plot_table missingTripTable = .crash "KeyError: Trip" := by
  refine ⟨rfl, by decide, by decide, ?_⟩
  rfl

/-- C4 amended: a missing STD or STA column is returned as the structured
    missing-column error naming the column, and those are the only columns
    so handled; with parseable dates, a missing Trip, Notas or Tripadi
    column raises an uncaught KeyError in the fillna calls; a missing Reg.
    raises an uncaught KeyError as soon as some window is plotted, and
    missing Flight, From or To as soon as some row is drawn. -/
theorem missing_column_error_handling :
    (∀ t : RawTable, t.std = none →
        process_and_plot_table t = .handled "Missing column in input data: STD")
    ∧ (∀ t : RawTable, ∀ stdCol stdDts, t.std = some stdCol →
        parse_dates stdCol = .ok stdDts → t.sta = none →
        process_and_plot_table t = .handled "Missing column in input data: STA")
    ∧ (∀ t : RawTable, ∀ stdCol stdDts staCol staDts,
        t.std = some stdCol → parse_dates stdCol = .ok stdDts →
        t.sta = some staCol → parse_dates staCol = .ok staDts →
        t.trip = none →
        process_and_plot_table t = .crash "KeyError: Trip")
    ∧ (∀ t : RawTable, ∀ stdCol stdDts staCol staDts tripC,
        t.std = some stdCol → parse_dates stdCol = .ok stdDts →
        t.sta = some staCol → parse_dates staCol = .ok staDts →
        t.trip = some tripC → t.notas = none →
        process_and_plot_table t = .crash "KeyError: Notas")
    ∧ (∀ t : RawTable, ∀ stdCol stdDts staCol staDts tripC notasC,
        t.std = some stdCol → parse_dates stdCol = .ok stdDts →
        t.sta = some staCol → parse_dates staCol = .ok staDts →
        t.trip = some tripC → t.notas = some notasC → t.tripadi = none →
        process_and_plot_table t = .crash "KeyError: Tripadi")
    ∧ (∀ t : RawTable, ∀ stdCol stdDts staCol staDts tripC notasC tripadiC,
        t.std = some stdCol → parse_dates stdCol = .ok stdDts →
        t.sta = some staCol → parse_dates staCol = .ok staDts →
        t.trip = some tripC → t.notas = some notasC → t.tripadi = some tripadiC →
        anyWindowNonempty (stdDts.map toMinutes) (staDts.map toMinutes) = true →
        t.reg = none →
        process_and_plot_table t = .crash "KeyError: Reg.")
    ∧ (∀ t : RawTable, ∀ stdCol stdDts staCol staDts tripC notasC tripadiC regC,
        t.std = some stdCol → parse_dates stdCol = .ok stdDts →
        t.sta = some staCol → parse_dates staCol = .ok staDts →
        t.trip = some tripC → t.notas = some notasC → t.tripadi = some tripadiC →
        anyWindowNonempty (stdDts.map toMinutes) (staDts.map toMinutes) = true →
        t.reg = some regC →
        anyRowDrawn regC (stdDts.map toMinutes) (staDts.map toMinutes) = true →
        t.flightNumbers = none →
        process_and_plot_table t = .crash "KeyError: Flight")
    ∧ (∀ t : RawTable,
        ∀ stdCol stdDts staCol staDts tripC notasC tripadiC regC flightC,
        t.std = some stdCol → parse_dates stdCol = .ok stdDts →
        t.sta = some staCol → parse_dates staCol = .ok staDts →
        t.trip = some tripC → t.notas = some notasC → t.tripadi = some tripadiC →
        anyWindowNonempty (stdDts.map toMinutes) (staDts.map toMinutes) = true →
        t.reg = some regC →
        anyRowDrawn regC (stdDts.map toMinutes) (staDts.map toMinutes) = true →
        t.flightNumbers = some flightC → t.origin = none →
        process_and_plot_table t = .crash "KeyError: From")
    ∧ (∀ t : RawTable,
        ∀ stdCol stdDts staCol staDts tripC notasC tripadiC regC flightC fromC,
        t.std = some stdCol → parse_dates stdCol = .ok stdDts →
        t.sta = some staCol → parse_dates staCol = .ok staDts →
        t.trip = some tripC → t.notas = some notasC → t.tripadi = some tripadiC →
        anyWindowNonempty (stdDts.map toMinutes) (staDts.map toMinutes) = true →
        t.reg = some regC →
        anyRowDrawn regC (stdDts.map toMinutes) (staDts.map toMinutes) = true →
        t.flightNumbers = some flightC → t.origin = some fromC → t.dest = none →
        process_and_plot_table t = .crash "KeyError: To")
    ∧ (∀ t : RawTable, ∀ msg, process_and_plot_table t = .handled msg →
        msg = "Missing column in input data: STD"
        ∨ msg = "Missing column in input data: STA"
        ∨ ∃ e, msg = "Date conversion error: " ++ e) := by
  refine ⟨?_, ?_, ?_, ?_, ?_, ?_, ?_, ?_, ?_, ?_⟩
  · intro t h
    simp [process_and_plot_table, h]
  · intro t stdCol stdDts h1 h2 h3
    simp [process_and_plot_table, h1, h2, h3]
  · intro t stdCol stdDts staCol staDts h1 h2 h3 h4 h5
    simp [process_and_plot_table, h1, h2, h3, h4, h5]
  · intro t stdCol stdDts staCol staDts tripC h1 h2 h3 h4 h5 h6
    simp [process_and_plot_table, h1, h2, h3, h4, h5, h6]
  · intro t stdCol stdDts staCol staDts tripC notasC h1 h2 h3 h4 h5 h6 h7
    simp [process_and_plot_table, h1, h2, h3, h4, h5, h6, h7]
  · intro t stdCol stdDts staCol staDts tripC notasC tripadiC
      h1 h2 h3 h4 h5 h6 h7 h8 h9
    simp [process_and_plot_table, h1, h2, h3, h4, h5, h6, h7, h8, h9]
  · intro t stdCol stdDts staCol staDts tripC notasC tripadiC regC
      h1 h2 h3 h4 h5 h6 h7 h8 h9 h10 h11
    simp [process_and_plot_table, h1, h2, h3, h4, h5, h6, h7, h8, h9, h10, h11]
  · intro t stdCol stdDts staCol staDts tripC notasC tripadiC regC flightC
      h1 h2 h3 h4 h5 h6 h7 h8 h9 h10 h11 h12
    simp [process_and_plot_table, h1, h2, h3, h4, h5, h6, h7, h8, h9, h10,
      h11, h12]
  · intro t stdCol stdDts staCol staDts tripC notasC tripadiC regC flightC fromC
      h1 h2 h3 h4 h5 h6 h7 h8 h9 h10 h11 h12 h13
    simp [process_and_plot_table, h1, h2, h3, h4, h5, h6, h7, h8, h9, h10,
      h11, h12, h13]
  · intro t msg
    cases hstd : t.std with
    | none =>
      intro h
      simp [process_and_plot_table, hstd] at h
      tauto
    | some stdCol =>
    cases hpd1 : parse_dates stdCol with
    | error e =>
      intro h
      simp [process_and_plot_table, hstd, hpd1] at h
      exact Or.inr (Or.inr ⟨e, h.symm⟩)
    | ok stdDts =>
    cases hsta : t.sta with
    | none =>
      intro h
      simp [process_and_plot_table, hstd, hpd1, hsta] at h
      tauto
    | some staCol =>
    cases hpd2 : parse_dates staCol with
    | error e =>
      intro h
      simp [process_and_plot_table, hstd, hpd1, hsta, hpd2] at h
      exact Or.inr (Or.inr ⟨e, h.symm⟩)
    | ok staDts =>
    cases htrip : t.trip with
    | none =>
      intro h
      simp [process_and_plot_table, hstd, hpd1, hsta, hpd2, htrip] at h
    | some tripC =>
    cases hnotas : t.notas with
    | none =>
      intro h
      simp [process_and_plot_table, hstd, hpd1, hsta, hpd2, htrip, hnotas] at h
    | some notasC =>
    cases htri : t.tripadi with
    | none =>
      intro h
      simp [process_and_plot_table, hstd, hpd1, hsta, hpd2, htrip, hnotas,
        htri] at h
    | some tripadiC =>
    cases hwin : anyWindowNonempty (stdDts.map toMinutes)
        (staDts.map toMinutes) with
    | false =>
      intro h
      simp [process_and_plot_table, hstd, hpd1, hsta, hpd2, htrip, hnotas,
        htri, hwin] at h
    | true =>
    cases hreg : t.reg with
    | none =>
      intro h
      simp [process_and_plot_table, hstd, hpd1, hsta, hpd2, htrip, hnotas,
        htri, hwin, hreg] at h
    | some regC =>
    cases hdr : anyRowDrawn regC (stdDts.map toMinutes)
        (staDts.map toMinutes) with
    | false =>
      intro h
      simp [process_and_plot_table, hstd, hpd1, hsta, hpd2, htrip, hnotas,
        htri, hwin, hreg, hdr] at h
    | true =>
    cases hfl : t.flightNumbers with
    | none =>
      intro h
      simp [process_and_plot_table, hstd, hpd1, hsta, hpd2, htrip, hnotas,
        htri, hwin, hreg, hdr, hfl] at h
    | some flightC =>
    cases hor : t.origin with
    | none =>
      intro h
      simp [process_and_plot_table, hstd, hpd1, hsta, hpd2, htrip, hnotas,
        htri, hwin, hreg, hdr, hfl, hor] at h
    | some fromC =>
    cases hde : t.dest with
    | none =>
      intro h
      simp [process_and_plot_table, hstd, hpd1, hsta, hpd2, htrip, hnotas,
        htri, hwin, hreg, hdr, hfl, hor, hde] at h
    | some toC =>
      intro h
      simp [process_and_plot_table, hstd, hpd1, hsta, hpd2, htrip, hnotas,
        htri, hwin, hreg, hdr, hfl, hor, hde] at h

/-- A frame with everything absent. -/
def allNoneTable : RawTable :=
  { reg := none, std := none, sta := none, flightNumbers := none, trip := none,
    notas := none, tripadi := none, origin := none, dest := none }

/-- A frame with parseable dates, fill columns present, Reg. missing; its
    single flight makes the first window nonempty. -/
def missingRegTable : RawTable :=
  { reg := none
    std := some ["01/06/2024 10:00"]
    sta := some ["01/06/2024 12:00"]
    flightNumbers := some ["QT1"]
    trip := some [some "T1"]
    notas := some [none]
    tripadi := some [some " "]
    origin := some ["BOG"]
    dest := some ["MDE"] }

/-- Witness for C4 amended: a frame missing STD is handled, a frame missing
    Trip crashes at fillna, a frame missing Reg. crashes once the window is
    plotted, and the handled message of the first frame is one of the
    structured ones. -/
theorem missing_column_error_handling_witness :
    process_and_plot_table allNoneTable
      = .handled "Missing column in input data: STD"
    ∧ process_and_plot_table missingTripTable = .crash "KeyError: Trip"
    ∧ process_and_plot_table missingRegTable = .crash "KeyError: Reg."
    ∧ ("Missing column in input data: STD" = "Missing column in input data: STD"
        ∨ "Missing column in input data: STD" = "Missing column in input data: STA"
        ∨ ∃ e, "Missing column in input data: STD"
            = "Date conversion error: " ++ e) :=
  ⟨missing_column_error_handling.1 allNoneTable rfl,
   missing_column_error_handling.2.2.1 missingTripTable
     ["01/06/2024 10:00"] [⟨2024, 6, 1, 10, 0⟩]
     ["01/06/2024 12:00"] [⟨2024, 6, 1, 12, 0⟩]
     rfl rfl rfl rfl rfl,
   missing_column_error_handling.2.2.2.2.2.1 missingRegTable
     ["01/06/2024 10:00"] [⟨2024, 6, 1, 10, 0⟩]
     ["01/06/2024 12:00"] [⟨2024, 6, 1, 12, 0⟩]
     [some "T1"] [none] [some " "]
     rfl rfl rfl rfl rfl rfl rfl (by decide) rfl,
   missing_column_error_handling.2.2.2.2.2.2.2.2.2 allNoneTable
     "Missing column in input data: STD"
     (missing_column_error_handling.1 allNoneTable rfl)⟩

end FlightProg
